import Mathlib

/-!
Verification development for the xRate market-notification bot.

The definitions below are a shallow embedding of the Python source:

* `XRate.breach`              ← `_breach` in `src/xrate/adapters/telegram/jobs.py`
* `XRate.breachTether24hCh`   ← `_breach_tether_24h_ch` in the same file
* `XRate.shouldFetchProvider` ← `_should_fetch_provider` in the same file
* `XRate.crawlerFetch`        ← `BaseCrawler.fetch` / `BaseCrawler._cache_valid`
                                in `src/xrate/adapters/crawlers/base.py`
* `XRate.getCrawlerSnapshot`  ← `get_crawler_snapshot` in
                                `src/xrate/application/crawler_service.py`
* `XRate.getIrrSnapshot`      ← `get_irr_snapshot` in
                                `src/xrate/application/rates_service.py`
* `XRate.postRateJob`         ← `post_rate_job` in
                                `src/xrate/adapters/telegram/jobs.py`

Python `float` inputs are modelled as exact rationals: the source converts
every float through `Decimal(str(x))`, and `str` of a float literal with few
significant digits is that decimal literal, so the rational value is the one
the Decimal computation sees.  `Decimal` divisions (28 significant digits)
are modelled as exact rational division; for the 0.5-percent comparison this
is exact for every input whose quantized values are not astronomically close
to the tie, which covers all representable market prices.  Wall-clock times
are modelled as integers (minutes for the eligibility gate, abstract ticks
elsewhere).  Network and transport effects are passed in as explicit
oracle arguments.
-/

namespace XRate

/-- Python `Decimal` rounding mode ROUND_HALF_UP applied to a rational:
nearest integer, ties away from zero. -/
def roundHalfUp (q : ℚ) : ℤ :=
  if 0 ≤ q then ⌊q + 1/2⌋ else -⌊(1/2) - q⌋

/-- Python `Decimal.quantize` to `exp` decimal places with ROUND_HALF_UP. -/
def quantizeHalfUp (exp : ℕ) (q : ℚ) : ℚ :=
  (roundHalfUp (q * 10 ^ exp) : ℚ) / 10 ^ exp

/-- Prices are quantized to 4 decimal places (`Decimal('0.0001')`). -/
def quant4 (q : ℚ) : ℚ := quantizeHalfUp 4 q

/-- Percentages are quantized to 2 decimal places (`Decimal('0.01')`). -/
def quant2 (q : ℚ) : ℚ := quantizeHalfUp 2 q

/-- The module-level `_breach_history` dict: key present with value
`"up"`/`"down"`/`None`.  `h s = none` means the key is absent,
`h s = some v` means the key is present with value `v`
(`none` standing for Python `None`). -/
def HistMap : Type := String → Option (Option String)

/-- Dict assignment `_breach_history[instrument] = v`. -/
def histSet (h : HistMap) (k : String) (v : Option String) : HistMap :=
  fun s => if s = k then some v else h s

/-- Shallow embedding of `_breach(curr, prev, up_pct, down_pct, instrument)`
from `src/xrate/adapters/telegram/jobs.py`.  The mutable module-level
`_breach_history` is passed (and returned) explicitly.  Returns the Boolean
result paired with the updated history. -/
def breach (curr prev up_pct down_pct : ℚ) (instrument : String) (hist : HistMap) :
    Bool × HistMap :=
  if prev ≤ 0 then (true, hist)   -- no baseline: always announce
  else
    let curr_decimal := quant4 curr
    let prev_decimal := quant4 prev
    let up_pct_decimal := quant2 up_pct
    let down_pct_decimal := quant2 down_pct
    let upper_bound := prev_decimal * (1 + up_pct_decimal / 100)
    let lower_bound := prev_decimal * (1 - down_pct_decimal / 100)
    let increase_breach : Bool := upper_bound ≤ curr_decimal
    let decrease_breach : Bool := curr_decimal ≤ lower_bound
    -- `if instrument and instrument in _breach_history:` hysteresis suppression
    let suppressed : Bool :=
      match (if instrument ≠ "" then hist instrument else none) with
      | some last_direction =>
          if last_direction = some "up" ∧ increase_breach = true then
            -- require current >= upper_bound * 1.002 before re-posting
            curr_decimal < upper_bound * (1002/1000)
          else if last_direction = some "down" ∧ decrease_breach = true then
            -- require current <= lower_bound * 0.998 before re-posting
            lower_bound * (998/1000) < curr_decimal
          else false
      | none => false
    if suppressed then (false, hist)  -- still in hysteresis zone, history untouched
    else
      let hist' :=
        if instrument ≠ "" then
          if increase_breach then histSet hist instrument (some "up")
          else if decrease_breach then histSet hist instrument (some "down")
          else
            let percent_change := (curr_decimal - prev_decimal) / prev_decimal * 100
            if |percent_change| < 1/2 then hist  -- still near threshold, keep history
            else histSet hist instrument none    -- moved well away, reset
        else hist
      (increase_breach || decrease_breach, hist')

/-- Shallow embedding of `_breach_tether_24h_ch(tether_24h_ch, up_pct, down_pct)`. -/
def breachTether24hCh (tether_24h_ch up_pct down_pct : ℚ) : Bool :=
  let increase_breach : Bool := up_pct ≤ tether_24h_ch
  let decrease_breach : Bool := tether_24h_ch ≤ -down_pct
  increase_breach || decrease_breach

/-- The module-level `_provider_next_eligible` dict mapping a provider name to
its next-eligible wall-clock time (minutes). -/
def GateMap : Type := String → Option ℤ

/-- Dict assignment `_provider_next_eligible[name] = t`. -/
def gateSet (g : GateMap) (k : String) (t : ℤ) : GateMap :=
  fun s => if s = k then some t else g s

/-- Shallow embedding of `_should_fetch_provider(provider_name, cache_minutes)`
from `src/xrate/adapters/telegram/jobs.py`; `now` stands for
`datetime.now(timezone.utc)` in minutes. -/
def shouldFetchProvider (g : GateMap) (provider_name : String) (cache_minutes : ℤ)
    (now : ℤ) : Bool × GateMap :=
  match g provider_name with
  | none =>
      -- first time, allow fetch
      (true, gateSet g provider_name now)
  | some next_eligible =>
      if next_eligible ≤ now then
        -- update next eligible time
        (true, gateSet g provider_name (now + cache_minutes))
      else
        (false, g)

/-- Runs `shouldFetchProvider` for one provider name over a list of call times,
threading the gate map; returns the list of Boolean results and the final map. -/
def runGate (provider_name : String) (cache_minutes : ℤ) (times : List ℤ)
    (g : GateMap) : List Bool × GateMap :=
  match times with
  | [] => ([], g)
  | t :: ts =>
      let r := shouldFetchProvider g provider_name cache_minutes t
      let rest := runGate provider_name cache_minutes ts r.2
      (r.1 :: rest.1, rest.2)

/-- The `CrawlerResult` dataclass of `src/xrate/adapters/crawlers/base.py`. -/
structure CrawlerResult where
  usd_sell : Option ℤ := none
  eur_sell : Option ℤ := none
  gold_gram_sell : Option ℤ := none
  timestamp : Option ℤ := none
deriving DecidableEq, Repr

/-- The class-level cache of `BaseCrawler`: `_cache_data` and `_cache_ts`. -/
structure CrawlerCacheState where
  cache_data : Option CrawlerResult := none
  cache_ts : Option ℤ := none
deriving DecidableEq, Repr

/-- Shallow embedding of `BaseCrawler._cache_valid` (`now` stands for
`datetime.now(timezone.utc)`, `ttl` for `self.ttl`, both in abstract ticks). -/
def cacheValid (s : CrawlerCacheState) (now ttl : ℤ) : Bool :=
  match s.cache_data, s.cache_ts with
  | some _, some ts => now - ts < ttl
  | _, _ => false

/-- Shallow embedding of `BaseCrawler.fetch`.  `attempt` is the outcome of
`self._parse_html(self._fetch_html())` — the network request followed by the
parse — which the caller's environment decides; `Except.error` stands for the
raised exception.  Returns the outcome surfaced to the caller (`Except.error`
standing for the re-raised `RuntimeError`) and the updated class-level cache. -/
def crawlerFetch (s : CrawlerCacheState) (now ttl : ℤ)
    (attempt : Except String CrawlerResult) :
    Except String CrawlerResult × CrawlerCacheState :=
  match s.cache_data, s.cache_ts with
  | some r, some ts =>
      if now - ts < ttl then
        (Except.ok r, s)               -- cache valid: return cached data
      else
        match attempt with             -- cache stale: fetch fresh data
        | Except.ok result =>
            (Except.ok result, { cache_data := some result, cache_ts := some now })
        | Except.error e =>
            (Except.error ("Failed to fetch or parse data: " ++ e), s)
  | _, _ =>
      match attempt with               -- no cache yet: fetch fresh data
      | Except.ok result =>
          (Except.ok result, { cache_data := some result, cache_ts := some now })
      | Except.error e =>
          (Except.error ("Failed to fetch or parse data: " ++ e), s)

/-- Whether a fetch outcome is a success (no exception surfaced). -/
def exceptOk {ε α : Type} : Except ε α → Bool
  | Except.ok _ => true
  | Except.error _ => false

/-- The `IrrSnapshot` domain model (`src/xrate/domain/models.py`). -/
structure IrrSnapshot where
  usd_toman : ℤ
  eur_toman : ℤ
  gold_1g_toman : ℤ
  provider : String
deriving DecidableEq, Repr

/-- Python truthiness of an `Optional[int]`: present and nonzero. -/
def truthyInt (o : Option ℤ) : Bool :=
  match o with
  | some n => n ≠ 0
  | none => false

/-- The check `result.usd_sell and result.eur_sell and result.gold_gram_sell` — all three
prices present and nonzero. -/
def crawlerResultComplete (r : CrawlerResult) : Bool :=
  truthyInt r.usd_sell && truthyInt r.eur_sell && truthyInt r.gold_gram_sell

/-- Shallow embedding of `get_crawler_snapshot` from
`src/xrate/application/crawler_service.py`.  `r1` and `r2` are the outcomes of
`crawler1.fetch()` (Bonbast) and `crawler2.fetch()` (AlanChand); an
`Except.error` models a raised exception, caught by the `except` blocks. -/
def getCrawlerSnapshot (r1 r2 : Except String CrawlerResult) : Option IrrSnapshot :=
  let crawler2Fallback : Option IrrSnapshot :=
    match r2 with
    | Except.ok result2 =>
        if crawlerResultComplete result2 then
          some { usd_toman := result2.usd_sell.getD 0
                 eur_toman := result2.eur_sell.getD 0
                 gold_1g_toman := result2.gold_gram_sell.getD 0
                 provider := "crawler2_alanchand" }
        else none                       -- incomplete data
    | Except.error _ => none            -- crawler2 failed
  match r1 with
  | Except.ok result1 =>
      if crawlerResultComplete result1 then
        some { usd_toman := result1.usd_sell.getD 0
               eur_toman := result1.eur_sell.getD 0
               gold_1g_toman := result1.gold_gram_sell.getD 0
               provider := "crawler1_bonbast" }
      else crawler2Fallback             -- incomplete data, try crawler2
  | Except.error _ => crawler2Fallback  -- crawler1 failed, try crawler2

/-- Python `s.replace(",", "")` on the characters of a string. -/
def stripCommas (s : String) : String :=
  String.mk (s.data.filter (fun c => c ≠ ','))

/-- Numeric value of a digit list, most significant first. -/
def digitsVal (cs : List Char) : ℕ :=
  cs.foldl (fun a c => a * 10 + (c.toNat - '0'.toNat)) 0

/-- Splits a character list at the first `'.'`, if any. -/
def splitDot : List Char → List Char × Option (List Char)
  | [] => ([], none)
  | c :: rest =>
      if c = '.' then ([], some rest)
      else
        let r := splitDot rest
        (c :: r.1, r.2)

/-- Python `float(s)` restricted to plain signed decimal literals (the only
shape of the numeric payloads the source parses); exponent and special forms
are not modelled.  `none` stands for a raised `ValueError`. -/
def parsePyFloat (s : String) : Option ℚ :=
  let unsigned : List Char → Option ℚ := fun cs =>
    let p := splitDot cs
    let ip := p.1
    let fp := p.2.getD []
    if ip.all Char.isDigit ∧ fp.all Char.isDigit ∧ (ip ≠ [] ∨ fp ≠ []) then
      some ((digitsVal ip : ℚ) + (digitsVal fp : ℚ) / 10 ^ fp.length)
    else none
  match s.data with
  | '-' :: rest => (unsigned rest).map (fun q => -q)
  | '+' :: rest => unsigned rest
  | cs => unsigned cs

/-- Python `int(q)` on a float value: truncation toward zero. -/
def ratTruncToward0 (q : ℚ) : ℤ :=
  if 0 ≤ q then ⌊q⌋ else -⌊-q⌋

/-- Shallow embedding of `_to_int` from `src/xrate/application/rates_service.py`:
`int(float(s.replace(",", "") or 0))`.  `Except.error` models the raised
`ValueError` on an unparsable string. -/
def toInt (s : String) : Except String ℤ :=
  let s' := stripCommas s
  if s' = "" then Except.ok 0
  else
    match parsePyFloat s' with
    | some q => Except.ok (ratTruncToward0 q)
    | none => Except.error "ValueError"

/-- The three values `vals.get("usd")`, `vals.get("eur")`, `vals.get("18ayar")`
of the mapping returned by `NavasanProvider.get_values`; `none` models an
absent key (defaulted to `"0"` by the source). -/
structure NavVals where
  usd : Option String
  eur : Option String
  gold : Option String
deriving DecidableEq, Repr

/-- Shallow embedding of the final Navasan fallback block of
`get_irr_snapshot` (`src/xrate/application/rates_service.py`).  `nav` is the
outcome of `provider.get_values(["usd", "eur", "18ayar"])`. -/
def navasanResolve (nav : Except String NavVals) : Option IrrSnapshot :=
  match nav with
  | Except.error _ => none              -- all sources failed
  | Except.ok vals =>
      let usd_val := vals.usd.getD "0"
      let eur_val := vals.eur.getD "0"
      let gold_val := vals.gold.getD "0"
      -- skip if any value is NOT_FOUND
      if usd_val = "NOT_FOUND" ∨ eur_val = "NOT_FOUND" ∨ gold_val = "NOT_FOUND" then
        none
      else
        match toInt usd_val, toInt eur_val, toInt gold_val with
        | Except.ok usd_toman, Except.ok eur_toman, Except.ok gold_1g_toman =>
            -- all zeros likely means failure
            if usd_toman = 0 ∧ eur_toman = 0 ∧ gold_1g_toman = 0 then none
            else
              some { usd_toman := usd_toman, eur_toman := eur_toman,
                     gold_1g_toman := gold_1g_toman, provider := "navasan" }
        | _, _, _ => none               -- ValueError caught by the except block

/-- Shallow embedding of `get_irr_snapshot` from
`src/xrate/application/rates_service.py`.  `c1`/`c2` are the two crawlers'
fetch outcomes, `brs` the outcome of the three `BRSAPIProvider` getters (a
raise anywhere in the block fails the whole block), `nav` the Navasan
outcome.  Returns `none` when all sources are unavailable; never raises. -/
def getIrrSnapshot (c1 c2 : Except String CrawlerResult)
    (brs : Except String (Option ℤ × Option ℤ × Option ℤ))
    (nav : Except String NavVals) : Option IrrSnapshot :=
  -- try crawlers first (priority: crawlers > APIs)
  match getCrawlerSnapshot c1 c2 with
  | some crawler_snap => some crawler_snap
  | none =>
      -- fallback to BRS API
      match brs with
      | Except.ok (usd_toman, eur_toman, gold_1g_toman) =>
          if truthyInt usd_toman && truthyInt eur_toman && truthyInt gold_1g_toman then
            some { usd_toman := usd_toman.getD 0
                   eur_toman := eur_toman.getD 0
                   gold_1g_toman := gold_1g_toman.getD 0
                   provider := "brsapi" }
          else
            navasanResolve nav          -- incomplete data, try Navasan
      | Except.error _ => navasanResolve nav  -- BRS failed, try Navasan

/-- The persisted `MarketState` (`src/xrate/application/state_manager.py`). -/
structure MarketState where
  usd_toman : ℤ
  eur_toman : ℤ
  gold_1g_toman : ℤ
  eurusd_rate : ℚ
  tether_price_toman : ℤ
  tether_24h_ch : ℚ
  ts : ℤ
deriving DecidableEq, Repr

/-- The settings fields `post_rate_job` reads (`src/xrate/config/settings.py`):
per-instrument margins and per-provider cache TTLs in minutes. -/
structure Settings where
  margin_usd_upper_pct : ℚ
  margin_usd_lower_pct : ℚ
  margin_eur_upper_pct : ℚ
  margin_eur_lower_pct : ℚ
  margin_gold_upper_pct : ℚ
  margin_gold_lower_pct : ℚ
  margin_eurusd_upper_pct : ℚ
  margin_eurusd_lower_pct : ℚ
  margin_tether_upper_pct : ℚ
  margin_tether_lower_pct : ℚ
  brsapi_cache_minutes : ℤ
  fastforex_cache_minutes : ℤ
  navasan_cache_minutes : ℤ
  wallex_cache_minutes : ℤ

/-- The process state `post_rate_job` reads and mutates: the provider
eligibility map, the hysteresis history, the state manager's current
`MarketState` (in-memory value, write-through persisted on every
`update_state`), and the statistics counters (`total_posts`, `total_errors`)
of `stats_tracker`. -/
structure JobState where
  gate : GateMap
  hist : HistMap
  market : Option MarketState
  posts : ℕ
  errors : ℕ

/-- Outcome of one `context.bot.send_message` call: success, a `RetryAfter`
rate-limit exception carrying the wait, a `TimedOut` exception, or any other
exception. -/
inductive SendOutcome
  | success
  | retryAfter (wait : ℚ)
  | timedOut
  | failed (msg : String)
deriving DecidableEq, Repr

/-- The send-with-one-retry flow around `context.bot.send_message`: on
`RetryAfter` the code sleeps `retry_after + 1` seconds and sends once more
(exceptions from the retry propagate); `TimedOut` is re-raised; any other
exception propagates.  `true` means control continues past the inner `try`. -/
def sendSucceeds (o1 o2 : SendOutcome) : Bool :=
  match o1 with
  | SendOutcome.success => true
  | SendOutcome.retryAfter _ =>
      match o2 with
      | SendOutcome.success => true
      | _ => false
  | SendOutcome.timedOut => false
  | SendOutcome.failed _ => false

/-- A message delivered to the channel, abstracted to the decision the core
makes — which data and which instrument lines to include (`show_tether`
already folded with the data-availability conjunction of the call site).  The
text layout of `market_lines` / `market_lines_with_changes` is an external
formatting collaborator. -/
inductive ChannelMsg
  | firstRun (snap : Option IrrSnapshot) (eurusd : Option ℚ)
  | update (snap : Option IrrSnapshot) (eurusd : Option ℚ)
      (show_usd show_eur show_gold show_eurusd show_tether : Bool)
deriving DecidableEq, Repr

/-- Observable trace of one `post_rate_job` run: messages actually delivered
to the channel, whether the breach-path trigger disjunction fired, and the
outcome of the channel send when one was attempted. -/
structure JobTrace where
  delivered : List ChannelMsg := []
  breachFired : Bool := false
  sendOk : Option Bool := none
deriving DecidableEq, Repr

/-- The fetch section of `post_rate_job` (lines 229–253): the eligibility-gated
fetches of EUR/USD, the IRR snapshot and the Wallex Tether data, with the
short-circuiting `or` between the two gate checks of each composite.  Returns
the updated gate map, the EUR/USD rate, the snapshot and the Tether price and
24h-change. -/
def fetchPhase (cfg : Settings) (now : ℤ) (g : GateMap)
    (eurusdFetch : Option ℚ) (snapFetch : Option IrrSnapshot)
    (tetherFetch : Option (ℤ × ℚ)) :
    GateMap × Option ℚ × Option IrrSnapshot × Option ℤ × Option ℚ :=
  -- check if we should fetch EUR/USD (BRS/FastForex); `or` short-circuits
  let r1 := shouldFetchProvider g "brsapi" cfg.brsapi_cache_minutes now
  let rEU :=
    if r1.1 then (true, r1.2)
    else shouldFetchProvider r1.2 "fastforex" cfg.fastforex_cache_minutes now
  let eurusd_rate := if rEU.1 then eurusdFetch else none
  -- check if we should fetch IRR snapshot (BRS/Navasan)
  let r3 := shouldFetchProvider rEU.2 "brsapi" cfg.brsapi_cache_minutes now
  let rIRR :=
    if r3.1 then (true, r3.2)
    else shouldFetchProvider r3.2 "navasan" cfg.navasan_cache_minutes now
  let snap := if rIRR.1 then snapFetch else none
  -- fetch Tether data from Wallex (only if TTL allows)
  let rW := shouldFetchProvider rIRR.2 "wallex" cfg.wallex_cache_minutes now
  let tether := if rW.1 then tetherFetch else none
  (rW.2, eurusd_rate, snap, tether.map Prod.fst, tether.map Prod.snd)

/-- The first-run block of `post_rate_job` (lines 270–353): post the initial
message without percentages, then set the baseline; a failed send is only
logged (no statistics error is recorded in this block). -/
def firstRunPhase (now : ℤ) (eurusd_rate : Option ℚ) (snap : Option IrrSnapshot)
    (tether_price_toman : Option ℤ) (tether_24h_ch : Option ℚ)
    (o1 o2 : SendOutcome) (st1 : JobState) : JobState × JobTrace :=
  if sendSucceeds o1 o2 then
    let market' :=
      -- only update state if we have actual data
      if snap.isSome ∨ eurusd_rate.isSome then
        some { usd_toman := (snap.map IrrSnapshot.usd_toman).getD 0
               eur_toman := (snap.map IrrSnapshot.eur_toman).getD 0
               gold_1g_toman := (snap.map IrrSnapshot.gold_1g_toman).getD 0
               eurusd_rate := eurusd_rate.getD 0
               tether_price_toman := tether_price_toman.getD 0
               tether_24h_ch := tether_24h_ch.getD 0
               ts := now }
      else st1.market
    ({ st1 with market := market', posts := st1.posts + 1 },
     { delivered := [ChannelMsg.firstRun snap eurusd_rate],
       sendOk := some true })
  else
    -- failure logged by the enclosing try/except; no stats error here
    (st1, { sendOk := some false })

/-- The per-instrument breach flags of one comparison cycle together with the
hysteresis history after all `_breach` calls. -/
structure Triggers where
  usd : Bool
  eur : Bool
  gold : Bool
  fx : Bool
  tether : Bool
  hist : HistMap

/-- The trigger-evaluation section of `post_rate_job` (lines 355–395): one
`_breach` call per available instrument against the baseline `cs`, threading
the mutable `_breach_history`, plus the Tether 24h-change rule.  A positive
baseline value is required for the `_breach` call; otherwise the trigger is
`true` outright (the `if current_state.x > 0 else True` conditionals). -/
def evalTriggers (cfg : Settings) (eurusd_rate : Option ℚ)
    (snap : Option IrrSnapshot) (tether_24h_ch : Option ℚ) (cs : MarketState)
    (h : HistMap) : Triggers :=
  let pUsd :=
    match snap with
    | some s =>
        if 0 < cs.usd_toman then
          breach s.usd_toman cs.usd_toman
            cfg.margin_usd_upper_pct cfg.margin_usd_lower_pct "usd" h
        else (true, h)
    | none => (false, h)
  let pEur :=
    match snap with
    | some s =>
        if 0 < cs.eur_toman then
          breach s.eur_toman cs.eur_toman
            cfg.margin_eur_upper_pct cfg.margin_eur_lower_pct "eur" pUsd.2
        else (true, pUsd.2)
    | none => (false, pUsd.2)
  let pGold :=
    match snap with
    | some s =>
        if 0 < cs.gold_1g_toman then
          breach s.gold_1g_toman cs.gold_1g_toman
            cfg.margin_gold_upper_pct cfg.margin_gold_lower_pct "gold" pEur.2
        else (true, pEur.2)
    | none => (false, pEur.2)
  let pFx :=
    match eurusd_rate with
    | some r =>
        if 0 < cs.eurusd_rate then
          breach r cs.eurusd_rate
            cfg.margin_eurusd_upper_pct cfg.margin_eurusd_lower_pct "eurusd" pGold.2
        else (true, pGold.2)
    | none => (false, pGold.2)
  let trigger_tether :=
    match tether_24h_ch with
    | some ch =>
        breachTether24hCh ch cfg.margin_tether_upper_pct cfg.margin_tether_lower_pct
    | none => false
  { usd := pUsd.1, eur := pEur.1, gold := pGold.1, fx := pFx.1,
    tether := trigger_tether, hist := pFx.2 }

/-- The posting-and-commit section of `post_rate_job` (lines 457–536) given
the evaluated triggers `tg`: when any trigger fires, send (with the one
retry), and only on a successful send record the post and commit the merged
baseline; on ultimate send failure record a statistics error and leave the
baseline untouched. -/
def commitPhase (now : ℤ) (eurusd_rate : Option ℚ) (snap : Option IrrSnapshot)
    (tether_price_toman : Option ℤ) (tether_24h_ch : Option ℚ)
    (tg : Triggers) (o1 o2 : SendOutcome) (cs : MarketState)
    (st1 : JobState) : JobState × JobTrace :=
  let st2 : JobState := { st1 with hist := tg.hist }
  if tg.usd || tg.eur || tg.gold || tg.fx || tg.tether then
    if sendSucceeds o1 o2 then
      let market' :=
        -- only update state if we have actual data
        if snap.isSome ∨ eurusd_rate.isSome then
          some { usd_toman := (snap.map IrrSnapshot.usd_toman).getD cs.usd_toman
                 eur_toman := (snap.map IrrSnapshot.eur_toman).getD cs.eur_toman
                 gold_1g_toman :=
                   (snap.map IrrSnapshot.gold_1g_toman).getD cs.gold_1g_toman
                 eurusd_rate := eurusd_rate.getD cs.eurusd_rate
                 tether_price_toman := tether_price_toman.getD cs.tether_price_toman
                 tether_24h_ch := tether_24h_ch.getD cs.tether_24h_ch
                 ts := now }
        else st2.market
      ({ st2 with market := market', posts := st2.posts + 1 },
       { delivered := [ChannelMsg.update snap eurusd_rate
           tg.usd tg.eur tg.gold tg.fx
           (tg.tether && tether_price_toman.isSome && tether_24h_ch.isSome)],
         breachFired := true, sendOk := some true })
    else
      -- outer except: log and record a statistics error; no baseline commit
      ({ st2 with errors := st2.errors + 1 },
       { breachFired := true, sendOk := some false })
  else
    (st2, {})   -- no threshold breached: no send, no baseline mutation

/-- The whole with-baseline comparison block of `post_rate_job`
(lines 355–536): trigger evaluation followed by the posting-and-commit
section. -/
def comparePhase (cfg : Settings) (now : ℤ) (eurusd_rate : Option ℚ)
    (snap : Option IrrSnapshot) (tether_price_toman : Option ℤ)
    (tether_24h_ch : Option ℚ) (o1 o2 : SendOutcome) (cs : MarketState)
    (st1 : JobState) : JobState × JobTrace :=
  commitPhase now eurusd_rate snap tether_price_toman tether_24h_ch
    (evalTriggers cfg eurusd_rate snap tether_24h_ch cs st1.hist) o1 o2 cs st1

/-- Shallow embedding of `post_rate_job` from
`src/xrate/adapters/telegram/jobs.py`.  Oracle inputs stand for the
external effects: `locked` for `_post_rate_job_lock.locked()`, `now` for
`datetime.now(timezone.utc)`, `eurusdFetch` for `svc.eur_usd()`, `snapFetch`
for `get_irr_snapshot()`, `tetherFetch` for the Wallex Tether data (already
`None` on a raised/empty fetch), and `o1`/`o2` for the outcomes of the two
possible `send_message` attempts of the one channel post of the run.  The
Avalai analysis block is omitted: every exception in it is swallowed and it
touches none of the modelled state.  Logging is omitted.  Returns the updated
process state and the run trace.

The branch structure mirrors the source faithfully, including the fact that
the first-run block and the whole threshold/posting logic are nested under
the `else` arm of `if snap:` (lines 264–536), so they execute only when the
IRR snapshot is unavailable. -/
def postRateJob (locked : Bool) (cfg : Settings) (now : ℤ)
    (eurusdFetch : Option ℚ) (snapFetch : Option IrrSnapshot)
    (tetherFetch : Option (ℤ × ℚ)) (o1 o2 : SendOutcome)
    (st : JobState) : JobState × JobTrace :=
  if locked then (st, {}) else        -- skip concurrent execution
  let f := fetchPhase cfg now st.gate eurusdFetch snapFetch tetherFetch
  let eurusd_rate := f.2.1
  let snap := f.2.2.1
  let tether_price_toman := f.2.2.2.1
  let tether_24h_ch := f.2.2.2.2
  let st1 : JobState := { st with gate := f.1 }
  -- check if we have at least some data
  if eurusd_rate = none ∧ snap = none then (st1, {}) else
  if snap.isSome then
    (st1, {})   -- `if snap:` arm: only a debug log, nothing else runs
  else
    match st1.market with   -- current_state = state_manager.get_current_state()
    | none =>
        firstRunPhase now eurusd_rate snap tether_price_toman tether_24h_ch o1 o2 st1
    | some cs =>
        comparePhase cfg now eurusd_rate snap tether_price_toman tether_24h_ch
          o1 o2 cs st1

/-- A concrete cached crawler reading used by the stale-cache scenario. -/
def staleResultExample : CrawlerResult :=
  { usd_sell := some 108400, eur_sell := some 126000,
    gold_gram_sell := some 10812360, timestamp := some 0 }

/-- A cache state holding `staleResultExample` fetched at time 0. -/
def staleCacheExample : CrawlerCacheState :=
  { cache_data := some staleResultExample, cache_ts := some 0 }

/-- The default configuration values of `src/xrate/config/settings.py`:
margins 1 percent up / 2 percent down for every instrument, cache TTLs 15/15/28/15
minutes for BRS, FastForex, Navasan and Wallex. -/
def defaultSettings : Settings :=
  { margin_usd_upper_pct := 1, margin_usd_lower_pct := 2,
    margin_eur_upper_pct := 1, margin_eur_lower_pct := 2,
    margin_gold_upper_pct := 1, margin_gold_lower_pct := 2,
    margin_eurusd_upper_pct := 1, margin_eurusd_lower_pct := 2,
    margin_tether_upper_pct := 1, margin_tether_lower_pct := 2,
    brsapi_cache_minutes := 15, fastforex_cache_minutes := 15,
    navasan_cache_minutes := 28, wallex_cache_minutes := 15 }

/-- A persisted baseline with `USD = 100000` (scenario B of the spec). -/
def baselineExample : MarketState :=
  { usd_toman := 100000, eur_toman := 126000, gold_1g_toman := 10812360,
    eurusd_rate := 0, tether_price_toman := 0, tether_24h_ch := 0, ts := 0 }

/-- Process state with `baselineExample` installed and everything else empty. -/
def jobStateWithBaseline : JobState :=
  { gate := fun _ => none, hist := fun _ => none,
    market := some baselineExample, posts := 0, errors := 0 }

/-- Cold-start process state: no baseline, empty gate and history. -/
def coldStartJobState : JobState :=
  { gate := fun _ => none, hist := fun _ => none,
    market := none, posts := 0, errors := 0 }

/-- A complete IRR snapshot with `USD = 102000` — a +2 percent move over
`baselineExample`, past the 1 percent upper threshold. -/
def snapUsd102000 : IrrSnapshot := IrrSnapshot.mk 102000 126000 10812360 "crawler1_bonbast"

/-- The complete first-fetch snapshot of scenario A
(`USD=108400, EUR=126000, Gold=10812360`). -/
def snapColdStart : IrrSnapshot := IrrSnapshot.mk 108400 126000 10812360 "crawler1_bonbast"

/-! Theorems about the claims. -/

/-- C6: after `_breach` has confirmed an Up breach for instrument `"i"` at
`current = 101.0` vs `previous = 100` (upper threshold 1 percent, lower 2
percent), an immediately following call with `current = 101.1` (within the
extra 0.2 percent hysteresis band above the upper bound) returns `false` and
leaves the stored direction unchanged, while a call with `current = 101.3`
returns `true`. -/
theorem breach_hysteresis_band (h0 : HistMap) (hh : h0 "i" = none) :
    breach 101 100 1 2 "i" h0 = (true, histSet h0 "i" (some "up")) ∧
    breach (1011/10) 100 1 2 "i" (histSet h0 "i" (some "up")) =
      (false, histSet h0 "i" (some "up")) ∧
    (breach (1013/10) 100 1 2 "i" (histSet h0 "i" (some "up"))).1 = true := by
  have e100 : quant4 100 = 100 := by norm_num [quant4, quantizeHalfUp, roundHalfUp]
  have e101 : quant4 101 = 101 := by norm_num [quant4, quantizeHalfUp, roundHalfUp]
  have e1011 : quant4 (1011/10) = 1011/10 := by
    norm_num [quant4, quantizeHalfUp, roundHalfUp]
  have e1013 : quant4 (1013/10) = 1013/10 := by
    norm_num [quant4, quantizeHalfUp, roundHalfUp]
  have eu : quant2 1 = 1 := by norm_num [quant2, quantizeHalfUp, roundHalfUp]
  have ed : quant2 2 = 2 := by norm_num [quant2, quantizeHalfUp, roundHalfUp]
  have hset : histSet h0 "i" (some "up") "i" = some (some "up") := by simp [histSet]
  refine ⟨?_, ?_, ?_⟩
  · simp only [breach, e100, e101, eu, ed, hh]
    norm_num
    simp
  · simp only [breach, e100, e1011, eu, ed, hset]
    norm_num
    simp
  · simp only [breach, e100, e1013, eu, ed, hset]
    norm_num
    simp

/-- Witness for C6 at the empty history. -/
theorem breach_hysteresis_band_witness :
    (fun _ => none : HistMap) "i" = none ∧
    (breach 101 100 1 2 "i" (fun _ => none) =
      (true, histSet (fun _ => none) "i" (some "up")) ∧
    breach (1011/10) 100 1 2 "i" (histSet (fun _ => none) "i" (some "up")) =
      (false, histSet (fun _ => none) "i" (some "up")) ∧
    (breach (1013/10) 100 1 2 "i" (histSet (fun _ => none) "i" (some "up"))).1 = true) :=
  ⟨rfl, breach_hysteresis_band (fun _ => none) rfl⟩

/-- C7: with no prior direction state for `"i"`,
`_breach(101.0, 100, 1.0, 2.0, "i")` is `true` and
`_breach(100.99, 100, 1.0, 2.0, "i")` is `false`; more generally, for any
current price already at 4-decimal resolution and above the lower bound, the
upper-threshold comparison is exactly `current >= previous * (1 + up/100)`,
so the exact boundary value counts as a breach and any 4-decimal value below
it does not. -/
theorem breach_threshold_boundary (h0 : HistMap) (hh : h0 "i" = none) :
    (breach 101 100 1 2 "i" h0).1 = true ∧
    (breach (10099/100) 100 1 2 "i" h0).1 = false ∧
    ∀ c : ℚ, quant4 c = c → 98 < c →
      (breach c 100 1 2 "i" h0).1 = decide (101 ≤ c) := by
  have e100 : quant4 100 = 100 := by norm_num [quant4, quantizeHalfUp, roundHalfUp]
  have e101 : quant4 101 = 101 := by norm_num [quant4, quantizeHalfUp, roundHalfUp]
  have e9 : quant4 (10099/100) = 10099/100 := by
    norm_num [quant4, quantizeHalfUp, roundHalfUp]
  have eu : quant2 1 = 1 := by norm_num [quant2, quantizeHalfUp, roundHalfUp]
  have ed : quant2 2 = 2 := by norm_num [quant2, quantizeHalfUp, roundHalfUp]
  refine ⟨?_, ?_, ?_⟩
  · simp only [breach, e100, e101, eu, ed, hh]
    norm_num
  · simp only [breach, e100, e9, eu, ed, hh]
    norm_num
  · intro c hc h98
    simp only [breach, e100, eu, ed, hc, hh]
    norm_num
    intro h
    exact absurd h (not_le.mpr h98)

/-- Witness for C7 at the empty history. -/
theorem breach_threshold_boundary_witness :
    (fun _ => none : HistMap) "i" = none ∧
    ((breach 101 100 1 2 "i" (fun _ => none)).1 = true ∧
     (breach (10099/100) 100 1 2 "i" (fun _ => none)).1 = false ∧
     ∀ c : ℚ, quant4 c = c → 98 < c →
       (breach c 100 1 2 "i" (fun _ => none)).1 = decide (101 ≤ c)) :=
  ⟨rfl, breach_threshold_boundary (fun _ => none) rfl⟩

/-- C8: in any `_breach` call with a non-empty instrument, positive previous
value and no breach in either direction, the result is `false` and the stored
direction for the instrument is reset to `None` exactly when the (quantized)
percentage distance from previous is at least 0.5 percent; below that, the
history is left untouched. -/
theorem breach_direction_reset (curr prev up down : ℚ) (inst : String) (h : HistMap)
    (hinst : inst ≠ "")
    (hprev : 0 < prev)
    (hni : quant4 curr < quant4 prev * (1 + quant2 up / 100))
    (hnd : quant4 prev * (1 - quant2 down / 100) < quant4 curr) :
    (breach curr prev up down inst h).1 = false ∧
    (breach curr prev up down inst h).2 =
      (if |(quant4 curr - quant4 prev) / quant4 prev * 100| < 1/2 then h
       else histSet h inst none) := by
  have hp : ¬ prev ≤ 0 := not_le.mpr hprev
  have hi : ¬ (quant4 prev * (1 + quant2 up / 100) ≤ quant4 curr) := not_le.mpr hni
  have hd : ¬ (quant4 curr ≤ quant4 prev * (1 - quant2 down / 100)) := not_le.mpr hnd
  have hi' : decide (quant4 prev * (1 + quant2 up / 100) ≤ quant4 curr) = false :=
    decide_eq_false hi
  have hd' : decide (quant4 curr ≤ quant4 prev * (1 - quant2 down / 100)) = false :=
    decide_eq_false hd
  simp only [breach, if_neg hp, if_pos hinst, hi', hd', Bool.false_eq_true, and_false,
    if_false, Bool.or_self]
  cases hcase : h inst <;> simp

/-- Witness for C8: a 0.1 percent move with a stale Up direction (no breach,
inside the 0.5 percent band, history kept). -/
theorem breach_direction_reset_witness :
    (("i" : String) ≠ "") ∧ ((0:ℚ) < 100) ∧
    (quant4 (1001/10) < quant4 100 * (1 + quant2 1 / 100)) ∧
    (quant4 100 * (1 - quant2 2 / 100) < quant4 (1001/10)) ∧
    ((breach (1001/10) 100 1 2 "i" (fun _ => some (some "up"))).1 = false ∧
     (breach (1001/10) 100 1 2 "i" (fun _ => some (some "up"))).2 =
       (if |(quant4 (1001/10) - quant4 100) / quant4 100 * 100| < 1/2 then
          (fun _ => some (some "up") : HistMap)
        else histSet (fun _ => some (some "up")) "i" none)) :=
  ⟨by decide, by norm_num,
   by norm_num [quant4, quant2, quantizeHalfUp, roundHalfUp],
   by norm_num [quant4, quant2, quantizeHalfUp, roundHalfUp],
   breach_direction_reset (1001/10) 100 1 2 "i" (fun _ => some (some "up"))
     (by decide) (by norm_num)
     (by norm_num [quant4, quant2, quantizeHalfUp, roundHalfUp])
     (by norm_num [quant4, quant2, quantizeHalfUp, roundHalfUp])⟩

/-- C10: a `_breach` call with the default empty instrument name never touches
the hysteresis state: the history is returned unchanged, and the Boolean
result — the plain threshold test — is the same for every history content. -/
theorem breach_no_instrument_frame (curr prev up down : ℚ) (h h' : HistMap) :
    (breach curr prev up down "" h).2 = h ∧
    (breach curr prev up down "" h).1 = (breach curr prev up down "" h').1 := by
  simp only [breach]
  split
  · exact ⟨rfl, rfl⟩
  · simp

/-- C4 counterexample: starting from an empty eligibility map with TTL 10 and
calls at 1-minute increments, the call at minute 1 already returns `true`
again (the first call only recorded `now`, not `now + TTL`), and the call at
minute 10 returns `false` — not the `[true, false x 9, true]` trace the claim
states. -/
theorem should_fetch_second_call_true_counterexample :
    (runGate "x" 10 [0, 1, 2, 3, 4, 5, 6, 7, 8, 9, 10] (fun _ => none)).1 =
      [true, true, false, false, false, false, false, false, false, false, false] ∧
    (runGate "x" 10 [0, 1, 2, 3, 4, 5, 6, 7, 8, 9, 10] (fun _ => none)).1 ≠
      [true, false, false, false, false, false, false, false, false, false, true] := by
  decide

/-- C4 amended: the first call returns `true` and records only the current
time, so the next call one minute later also returns `true` and arms
`next_eligible = its time + TTL`; the following nine calls (minutes 2–10)
return `false`, and the call at minute 11 returns `true` again. -/
theorem should_fetch_cadence_amended :
    (runGate "x" 10 [0, 1, 2, 3, 4, 5, 6, 7, 8, 9, 10, 11] (fun _ => none)).1 =
      [true, true, false, false, false, false, false, false, false, false, false, true] := by
  decide

/-- C5 counterexample: with a cached value present but older than the TTL
(fetched at time 0, now 20, TTL 10), a failing refresh surfaces the failure
to the caller even though a cached value has been obtained before — though
the cached value itself is left untouched. -/
theorem crawler_fetch_stale_failure_counterexample :
    staleCacheExample.cache_data.isSome = true ∧
    exceptOk (crawlerFetch staleCacheExample 20 10 (Except.error "network error")).1 = false ∧
    (crawlerFetch staleCacheExample 20 10 (Except.error "network error")).2 =
      staleCacheExample := by
  decide

/-- C5 amended: on a failed network-or-parse attempt the cache is always left
untouched, and the failure is suppressed exactly when the cached value is
still within its TTL (in which case no network attempt is made at all): with
an absent or stale cache, `fetch` raises. -/
theorem crawler_fetch_failure_amended (s : CrawlerCacheState) (now ttl : ℤ) (e : String) :
    (crawlerFetch s now ttl (Except.error e)).2 = s ∧
    exceptOk (crawlerFetch s now ttl (Except.error e)).1 = cacheValid s now ttl := by
  obtain ⟨d, ts⟩ := s
  cases d <;> cases ts <;> simp [crawlerFetch, cacheValid, exceptOk]
  split <;> simp_all [exceptOk]

lemma truthyInt_getD {o : Option ℤ} (h : truthyInt o = true) : o.getD 0 ≠ 0 := by
  cases o <;> simp_all [truthyInt]

lemma crawlerResultComplete_iff {r : CrawlerResult} :
    crawlerResultComplete r = true ↔
      truthyInt r.usd_sell = true ∧ truthyInt r.eur_sell = true ∧
      truthyInt r.gold_gram_sell = true := by
  simp [crawlerResultComplete, Bool.and_eq_true, and_assoc]

/-- A snapshot produced by the crawler resolver is tagged with one of the two
crawler identifiers and carries three nonzero values. -/
lemma getCrawlerSnapshot_complete (c1 c2 : Except String CrawlerResult) (s : IrrSnapshot)
    (h : getCrawlerSnapshot c1 c2 = some s) :
    (s.provider = "crawler1_bonbast" ∨ s.provider = "crawler2_alanchand") ∧
    s.usd_toman ≠ 0 ∧ s.eur_toman ≠ 0 ∧ s.gold_1g_toman ≠ 0 := by
  have fall : ∀ r2 : CrawlerResult, c2 = Except.ok r2 →
      crawlerResultComplete r2 = true →
      (∀ s', s' = IrrSnapshot.mk (r2.usd_sell.getD 0) (r2.eur_sell.getD 0)
            (r2.gold_gram_sell.getD 0) "crawler2_alanchand" →
        (s'.provider = "crawler1_bonbast" ∨ s'.provider = "crawler2_alanchand") ∧
        s'.usd_toman ≠ 0 ∧ s'.eur_toman ≠ 0 ∧ s'.gold_1g_toman ≠ 0) := by
    intro r2 hc2 hcomp s' hs'
    obtain ⟨h1, h2, h3⟩ := crawlerResultComplete_iff.mp hcomp
    subst hs'
    exact ⟨Or.inr rfl, truthyInt_getD h1, truthyInt_getD h2, truthyInt_getD h3⟩
  cases c1 with
  | ok r1 =>
      cases hc1 : crawlerResultComplete r1 with
      | true =>
          simp [getCrawlerSnapshot, hc1] at h
          obtain ⟨h1, h2, h3⟩ := crawlerResultComplete_iff.mp hc1
          subst h
          exact ⟨Or.inl rfl, truthyInt_getD h1, truthyInt_getD h2, truthyInt_getD h3⟩
      | false =>
          cases c2 with
          | ok r2 =>
              cases hc2 : crawlerResultComplete r2 with
              | true =>
                  simp [getCrawlerSnapshot, hc1, hc2] at h
                  exact fall r2 rfl hc2 s h.symm
              | false => simp [getCrawlerSnapshot, hc1, hc2] at h
          | error e2 => simp [getCrawlerSnapshot, hc1] at h
  | error e1 =>
      cases c2 with
      | ok r2 =>
          cases hc2 : crawlerResultComplete r2 with
          | true =>
              simp [getCrawlerSnapshot, hc2] at h
              exact fall r2 rfl hc2 s h.symm
          | false => simp [getCrawlerSnapshot, hc2] at h
      | error e2 => simp [getCrawlerSnapshot] at h

/-- A snapshot produced by the Navasan fallback block is tagged `"navasan"`
and is not all-zero — but individual fields may still be zero. -/
lemma navasanResolve_shape (nav : Except String NavVals) (s : IrrSnapshot)
    (h : navasanResolve nav = some s) :
    s.provider = "navasan" ∧
    ¬(s.usd_toman = 0 ∧ s.eur_toman = 0 ∧ s.gold_1g_toman = 0) := by
  cases nav with
  | error msg => simp [navasanResolve] at h
  | ok vals =>
      simp only [navasanResolve] at h
      split at h
      · exact absurd h (by simp)
      · split at h
        · split at h
          · exact absurd h (by simp)
          · rw [Option.some_inj] at h
            subst h
            refine ⟨rfl, ?_⟩
            simp_all
        · exact absurd h (by simp)

lemma toInt_50000 : toInt "50000" = Except.ok 50000 := by
  have hs : stripCommas "50000" = "50000" := rfl
  have h : parsePyFloat "50000" = some (((50000:ℕ) : ℚ) + ((0:ℕ) : ℚ) / 10 ^ (0:ℕ)) := rfl
  simp only [toInt, hs, h]
  rw [if_neg (by decide : ¬("50000" : String) = "")]
  norm_num [ratTruncToward0]

lemma toInt_0 : toInt "0" = Except.ok 0 := by
  have hs : stripCommas "0" = "0" := rfl
  have h : parsePyFloat "0" = some (((0:ℕ) : ℚ) + ((0:ℕ) : ℚ) / 10 ^ (0:ℕ)) := rfl
  simp only [toInt, hs, h]
  rw [if_neg (by decide : ¬("0" : String) = "")]
  norm_num [ratTruncToward0]

/-- C9 counterexample: when both crawlers and BRS fail and Navasan returns
`usd="50000", eur="0", gold="0"`, `get_irr_snapshot` returns that reading with
two zero fields — not `None`, and not a complete (all-nonzero) snapshot — so
"returns the first complete snapshot / partial sources are skipped" fails at
the Navasan stage. -/
theorem irr_snapshot_navasan_zero_counterexample :
    getIrrSnapshot (Except.error "bonbast down") (Except.error "alanchand down")
      (Except.error "brs down")
      (Except.ok { usd := some "50000", eur := some "0", gold := some "0" }) =
      some (IrrSnapshot.mk 50000 0 0 "navasan") := by
  have hc : getCrawlerSnapshot (Except.error "bonbast down")
      (Except.error "alanchand down") = none := rfl
  simp only [getIrrSnapshot, hc, navasanResolve, Option.getD, toInt_50000, toInt_0]
  norm_num
  decide

/-- C9 amended: `get_irr_snapshot` tries Bonbast, AlanChand, BRS, Navasan in
that order and never mixes values across sources; a crawler or BRS winner is
complete (all three values nonzero) and tagged with its identifier; the final
Navasan stage accepts any reading with no `NOT_FOUND` value that is not
all-zero — so a partially-zero Navasan reading can be returned; when every
source fails the result is `none` (the function is total, it never raises). -/
theorem irr_snapshot_fallback_amended (c1 c2 : Except String CrawlerResult)
    (brs : Except String (Option ℤ × Option ℤ × Option ℤ)) (nav : Except String NavVals) :
    (∀ s, getCrawlerSnapshot c1 c2 = some s → getIrrSnapshot c1 c2 brs nav = some s) ∧
    (∀ s, getCrawlerSnapshot c1 c2 = some s →
        (s.provider = "crawler1_bonbast" ∨ s.provider = "crawler2_alanchand") ∧
        s.usd_toman ≠ 0 ∧ s.eur_toman ≠ 0 ∧ s.gold_1g_toman ≠ 0) ∧
    (∀ u e g, getCrawlerSnapshot c1 c2 = none → brs = Except.ok (u, e, g) →
        (truthyInt u && truthyInt e && truthyInt g) = true →
        getIrrSnapshot c1 c2 brs nav =
          some (IrrSnapshot.mk (u.getD 0) (e.getD 0) (g.getD 0) "brsapi")) ∧
    (getCrawlerSnapshot c1 c2 = none →
        (∀ u e g, brs = Except.ok (u, e, g) →
            (truthyInt u && truthyInt e && truthyInt g) = false →
            getIrrSnapshot c1 c2 brs nav = navasanResolve nav) ∧
        (∀ msg, brs = Except.error msg →
            getIrrSnapshot c1 c2 brs nav = navasanResolve nav)) ∧
    (∀ s, navasanResolve nav = some s →
        s.provider = "navasan" ∧
        ¬(s.usd_toman = 0 ∧ s.eur_toman = 0 ∧ s.gold_1g_toman = 0)) := by
  refine ⟨?_, ?_, ?_, ?_, ?_⟩
  · intro s h
    simp [getIrrSnapshot, h]
  · intro s h
    exact getCrawlerSnapshot_complete c1 c2 s h
  · intro u e g hc hbrs ht
    simp [getIrrSnapshot, hc, hbrs, ht]
  · intro hc
    constructor
    · intro u e g hbrs ht
      simp [getIrrSnapshot, hc, hbrs, ht]
    · intro msg hbrs
      simp [getIrrSnapshot, hc, hbrs]
  · intro s h
    exact navasanResolve_shape nav s h

/-- Witness for C9 amended: a complete Bonbast reading wins with its tag. -/
theorem irr_snapshot_fallback_amended_witness :
    getCrawlerSnapshot (Except.ok staleResultExample) (Except.error "down") =
      some (IrrSnapshot.mk 108400 126000 10812360 "crawler1_bonbast") ∧
    getIrrSnapshot (Except.ok staleResultExample) (Except.error "down")
      (Except.error "brs") (Except.error "nav") =
      some (IrrSnapshot.mk 108400 126000 10812360 "crawler1_bonbast") :=
  ⟨by decide,
   (irr_snapshot_fallback_amended (Except.ok staleResultExample) (Except.error "down")
     (Except.error "brs") (Except.error "nav")).1 _ (by decide)⟩

/-- C1: evaluating `post_rate_job` at the claim's own scenario — baseline
`USD=100000` (margins 1 percent up / 2 percent down), a complete IRR snapshot
fetched with `USD=102000`, channel send available — shows the run delivers no
message at all, fires no trigger and leaves the baseline untouched: because
the whole decision block (lines 270–536) is indented under the `else` arm of
`if snap:`, a successfully fetched snapshot short-circuits the job after a
debug log. -/
theorem post_rate_job_complete_snapshot_no_post_no_commit :
    (postRateJob false defaultSettings 100 none (some snapUsd102000) none
      SendOutcome.success SendOutcome.success jobStateWithBaseline).2 =
      JobTrace.mk [] false none ∧
    (postRateJob false defaultSettings 100 none (some snapUsd102000) none
      SendOutcome.success SendOutcome.success jobStateWithBaseline).1.market =
      some baselineExample ∧
    (postRateJob false defaultSettings 100 none (some snapUsd102000) none
      SendOutcome.success SendOutcome.success jobStateWithBaseline).1.posts = 0 := by
  decide

/-- C2: evaluating `post_rate_job` at the cold-start scenario — no baseline,
first fetch returns the complete snapshot `USD=108400, EUR=126000,
Gold=10812360` — shows no initial notification is sent and the baseline stays
absent: the first-run block sits inside the `else` (snapshot unavailable) arm
of `if snap:` and never runs when a snapshot was fetched. -/
theorem post_rate_job_cold_start_complete_snapshot_no_action :
    (postRateJob false defaultSettings 100 none (some snapColdStart) none
      SendOutcome.success SendOutcome.success coldStartJobState).2 =
      JobTrace.mk [] false none ∧
    (postRateJob false defaultSettings 100 none (some snapColdStart) none
      SendOutcome.success SendOutcome.success coldStartJobState).1.market = none := by
  decide

/-- In the posting-and-commit section, the baseline moves only when the send
(with its one retry) succeeded and a message was delivered; when the breach
path fired but the send ultimately failed, the baseline is untouched and
exactly one statistics error is recorded. -/
lemma commitPhase_commit (now : ℤ) (eurusd_rate : Option ℚ)
    (snap : Option IrrSnapshot) (tp : Option ℤ) (th : Option ℚ)
    (tg : Triggers) (o1 o2 : SendOutcome) (cs : MarketState) (st1 : JobState) :
    ((commitPhase now eurusd_rate snap tp th tg o1 o2 cs st1).1.market ≠ st1.market →
      sendSucceeds o1 o2 = true ∧
      (commitPhase now eurusd_rate snap tp th tg o1 o2 cs st1).2.delivered ≠ []) ∧
    ((commitPhase now eurusd_rate snap tp th tg o1 o2 cs st1).2.breachFired = true →
      sendSucceeds o1 o2 = false →
      (commitPhase now eurusd_rate snap tp th tg o1 o2 cs st1).1.market = st1.market ∧
      (commitPhase now eurusd_rate snap tp th tg o1 o2 cs st1).1.errors =
        st1.errors + 1) := by
  simp only [commitPhase]
  split
  · split
    · constructor
      · intro _
        refine ⟨by assumption, by simp⟩
      · intro _ hsf
        simp_all
    · constructor
      · intro hm
        exact absurd rfl hm
      · intro _ _
        exact ⟨rfl, rfl⟩
  · constructor
    · intro hm
      exact absurd rfl hm
    · intro hb
      simp at hb

/-- C3: in every `post_rate_job` run that starts with an existing baseline
`cs`, the baseline changes only if the channel send (including the single
retry after a rate-limit error) succeeded and a message was delivered before
the commit; and whenever the breach path fired but the send ultimately
failed, the baseline (in-memory and write-through persisted state alike) is
left at `cs` and one statistics error is recorded. -/
theorem post_rate_job_commit_only_after_send
    (locked : Bool) (cfg : Settings) (now : ℤ) (eurusdFetch : Option ℚ)
    (snapFetch : Option IrrSnapshot) (tetherFetch : Option (ℤ × ℚ))
    (o1 o2 : SendOutcome) (st : JobState) (cs : MarketState)
    (hbase : st.market = some cs) :
    ((postRateJob locked cfg now eurusdFetch snapFetch tetherFetch o1 o2 st).1.market ≠
        some cs →
      sendSucceeds o1 o2 = true ∧
      (postRateJob locked cfg now eurusdFetch snapFetch tetherFetch o1 o2
        st).2.delivered ≠ []) ∧
    ((postRateJob locked cfg now eurusdFetch snapFetch tetherFetch o1 o2
        st).2.breachFired = true →
      sendSucceeds o1 o2 = false →
      (postRateJob locked cfg now eurusdFetch snapFetch tetherFetch o1 o2 st).1.market =
        some cs ∧
      (postRateJob locked cfg now eurusdFetch snapFetch tetherFetch o1 o2 st).1.errors =
        st.errors + 1) := by
  simp only [postRateJob, hbase]
  split
  · simp [hbase]
  · split
    · simp [hbase]
    · split
      · simp [hbase]
      · simp only [comparePhase]
        have key := commitPhase_commit now
          (fetchPhase cfg now st.gate eurusdFetch snapFetch tetherFetch).2.1
          (fetchPhase cfg now st.gate eurusdFetch snapFetch tetherFetch).2.2.1
          (fetchPhase cfg now st.gate eurusdFetch snapFetch tetherFetch).2.2.2.1
          (fetchPhase cfg now st.gate eurusdFetch snapFetch tetherFetch).2.2.2.2
          (evalTriggers cfg
            (fetchPhase cfg now st.gate eurusdFetch snapFetch tetherFetch).2.1
            (fetchPhase cfg now st.gate eurusdFetch snapFetch tetherFetch).2.2.1
            (fetchPhase cfg now st.gate eurusdFetch snapFetch tetherFetch).2.2.2.2 cs
            st.hist)
          o1 o2 cs
          { st with gate := (fetchPhase cfg now st.gate eurusdFetch snapFetch
              tetherFetch).1 }
        simp only [hbase] at key
        exact key

/-- Witness for C3: baseline present, EUR/USD fetched against a zero baseline
rate (trigger fires), send fails outright — the implications hold at this
concrete run. -/
theorem post_rate_job_commit_only_after_send_witness :
    jobStateWithBaseline.market = some baselineExample ∧
    (((postRateJob false defaultSettings 100 (some 2) none none
        (SendOutcome.failed "boom") SendOutcome.success jobStateWithBaseline).1.market ≠
        some baselineExample →
      sendSucceeds (SendOutcome.failed "boom") SendOutcome.success = true ∧
      (postRateJob false defaultSettings 100 (some 2) none none
        (SendOutcome.failed "boom") SendOutcome.success
        jobStateWithBaseline).2.delivered ≠ []) ∧
    ((postRateJob false defaultSettings 100 (some 2) none none
        (SendOutcome.failed "boom") SendOutcome.success
        jobStateWithBaseline).2.breachFired = true →
      sendSucceeds (SendOutcome.failed "boom") SendOutcome.success = false →
      (postRateJob false defaultSettings 100 (some 2) none none
        (SendOutcome.failed "boom") SendOutcome.success jobStateWithBaseline).1.market =
        some baselineExample ∧
      (postRateJob false defaultSettings 100 (some 2) none none
        (SendOutcome.failed "boom") SendOutcome.success jobStateWithBaseline).1.errors =
        jobStateWithBaseline.errors + 1)) :=
  ⟨rfl, post_rate_job_commit_only_after_send false defaultSettings 100 (some 2) none none
    (SendOutcome.failed "boom") SendOutcome.success jobStateWithBaseline
    baselineExample rfl⟩

end XRate
